import Mathlib

/-!
Shallow embedding of the trace-context propagation utilities of the
repository (package `traceutil`, the pod patch helpers in
`pkg/util/pod/pod.go`, and the exporter bootstrap), together with models of
the two external functions the code calls to serialize span contexts:
`go.opencensus.io/trace/propagation.Binary` / `FromBinary` and Go's
`encoding/base64` standard encoding.  Bytes are modelled as `Nat` with
explicit `% 256` at the points where Go converts to `uint8`.
-/

namespace KubeTrace

/-- Model of `trace.SpanContext` (go.opencensus.io): a 16-byte trace ID,
an 8-byte span ID and a trace-options byte.  Byte strings are lists of
naturals; validity (lengths, byte bounds) is the predicate `valid` below. -/
structure SpanContext where
  traceID : List Nat
  spanID : List Nat
  traceOptions : Nat
deriving DecidableEq

/-- The zero value `trace.SpanContext{}` of Go. -/
def zeroSpanContext : SpanContext :=
  ⟨List.replicate 16 0, List.replicate 8 0, 0⟩

/-- A span context is valid when its identifiers have the sizes the Go
arrays `[16]byte` / `[8]byte` impose, every entry is a byte, the options
fit in the byte the wire format stores, and it is not the all-zero context
(which the tracing library treats as "no context"). -/
def SpanContext.valid (sc : SpanContext) : Prop :=
  sc.traceID.length = 16 ∧ sc.spanID.length = 8 ∧
  (∀ b ∈ sc.traceID, b < 256) ∧ (∀ b ∈ sc.spanID, b < 256) ∧
  sc.traceOptions < 256 ∧ sc ≠ zeroSpanContext

instance (sc : SpanContext) : Decidable sc.valid := by
  unfold SpanContext.valid
  exact inferInstance

/-- Model of `propagation.Binary` (go.opencensus.io/trace/propagation):
returns nil for the zero context, otherwise the 29-byte buffer
`[version 0, field 0, 16-byte trace ID, field 1, 8-byte span ID, field 2,
options byte]`; the options are truncated to a byte (`uint8(sc.TraceOptions)`). -/
def Binary (sc : SpanContext) : List Nat :=
  if sc = zeroSpanContext then []
  else 0 :: 0 :: (sc.traceID ++ 1 :: (sc.spanID ++ [2, sc.traceOptions % 256]))

/-- Model of `propagation.FromBinary`: rejects an empty buffer or a nonzero
version byte, then reads the three optional fields exactly as the Go code
does (`ok = false` is `none` here). -/
def FromBinary (b : List Nat) : Option SpanContext :=
  match b with
  | [] => none
  | version :: rest =>
    if version ≠ 0 then none
    else
      let p1 : List Nat × List Nat :=
        if 17 ≤ rest.length ∧ rest.headD 1 = 0 then ((rest.drop 1).take 16, rest.drop 17)
        else (List.replicate 16 0, rest)
      let p2 : List Nat × List Nat :=
        if 9 ≤ p1.2.length ∧ p1.2.headD 0 = 1 then ((p1.2.drop 1).take 8, p1.2.drop 9)
        else (List.replicate 8 0, p1.2)
      let opts : Nat :=
        if 2 ≤ p2.2.length ∧ p2.2.headD 0 = 2 then (p2.2.drop 1).headD 0 else 0
      some ⟨p1.1, p2.1, opts⟩

/-- Character `n` of the base64 standard alphabet
`A..Z a..z 0..9 + /` (model of `encoding/base64.StdEncoding`'s alphabet). -/
def b64Char (n : Nat) : Char :=
  if n < 26 then Char.ofNat (65 + n)
  else if n < 52 then Char.ofNat (97 + (n - 26))
  else if n < 62 then Char.ofNat (48 + (n - 52))
  else if n = 62 then '+'
  else '/'

/-- Inverse alphabet lookup: the 6-bit value of a base64 character, `none`
for a character outside the standard alphabet (including `=`). -/
def b64Value (c : Char) : Option Nat :=
  if 'A' ≤ c ∧ c ≤ 'Z' then some (c.toNat - 65)
  else if 'a' ≤ c ∧ c ≤ 'z' then some (c.toNat - 97 + 26)
  else if '0' ≤ c ∧ c ≤ '9' then some (c.toNat - 48 + 52)
  else if c = '+' then some 62
  else if c = '/' then some 63
  else none

/-- Model of `base64.StdEncoding.EncodeToString` on a byte list: groups of
three bytes become four alphabet characters; a trailing group of one or two
bytes is padded with `=`.  The `% 256` records that Go's input is `[]byte`. -/
def base64EncodeList : List Nat → List Char
  | [] => []
  | [b1] =>
      [b64Char (b1 % 256 / 4), b64Char (b1 % 256 % 4 * 16), '=', '=']
  | [b1, b2] =>
      [b64Char (b1 % 256 / 4), b64Char (b1 % 256 % 4 * 16 + b2 % 256 / 16),
       b64Char (b2 % 256 % 16 * 4), '=']
  | b1 :: b2 :: b3 :: rest =>
      b64Char (b1 % 256 / 4) :: b64Char (b1 % 256 % 4 * 16 + b2 % 256 / 16) ::
      b64Char (b2 % 256 % 16 * 4 + b3 % 256 / 64) :: b64Char (b3 % 256 % 64) ::
      base64EncodeList rest

def base64EncodeToString (bs : List Nat) : String :=
  String.mk (base64EncodeList bs)

/-- Model of `base64.StdEncoding.DecodeString` on the character list of the
input: four characters at a time, padding `=` only in the final quantum
(`xx==` yields one byte, `xxx=` two), any character outside the alphabet,
misplaced padding, or a length not a multiple of four is an error (`none`).
Like Go's non-strict decoder it ignores the unused trailing bits of a
padded quantum.  (Go additionally skips `\r` and `\n` in the input; no
claim concerns whitespace, so that lenience is not modelled.) -/
def base64DecodeQuanta : List Char → Option (List Nat)
  | [] => some []
  | c1 :: c2 :: c3 :: c4 :: rest =>
    match b64Value c1, b64Value c2 with
    | some v1, some v2 =>
      if c3 = '=' then
        if c4 = '=' ∧ rest = [] then some [v1 * 4 + v2 / 16]
        else none
      else
        match b64Value c3 with
        | some v3 =>
          if c4 = '=' then
            if rest = [] then some [v1 * 4 + v2 / 16, v2 % 16 * 16 + v3 / 4]
            else none
          else
            match b64Value c4 with
            | some v4 =>
              match base64DecodeQuanta rest with
              | some bs => some ((v1 * 4 + v2 / 16) :: (v2 % 16 * 16 + v3 / 4) ::
                                 (v3 % 4 * 64 + v4) :: bs)
              | none => none
            | none => none
        | none => none
    | _, _ => none
  | _ => none

def base64DecodeString (s : String) : Option (List Nat) :=
  base64DecodeQuanta s.toList

/-- The fields of a pod the trace utilities read or write: `Name`,
`ResourceVersion` and the `TraceContext` metadata field (the embedded
`ObjectMeta` of `v1.Pod` / `core.Pod` is flattened into this record). -/
structure Pod where
  name : String
  resourceVersion : String
  traceContext : String
deriving DecidableEq

/-- The two error sources of the decode path, by provenance in the Go code:
`malformedBase64` is the error `base64.StdEncoding.DecodeString` returns on
invalid input; `malformedTraceBuffer` is the error the traceutil functions
build themselves (`errors.New` / `fmt.Errorf`) when `propagation.FromBinary`
reports `ok == false`, carrying the message. -/
inductive DecodeError where
  | malformedBase64 : DecodeError
  | malformedTraceBuffer : String → DecodeError
deriving DecidableEq

/-- `SpanContextFromBase64String` (traceutil): base64-decode the string,
then parse the bytes with `FromBinary`; on either failure return the zero
`trace.SpanContext{}` together with the corresponding error. -/
def SpanContextFromBase64String (stringEncodedContext : String) :
    SpanContext × Option DecodeError :=
  match base64DecodeString stringEncodedContext with
  | none => (zeroSpanContext, some DecodeError.malformedBase64)
  | some decodedContextBytes =>
    match FromBinary decodedContextBytes with
    | none => (zeroSpanContext,
        some (DecodeError.malformedTraceBuffer "could not convert raw bytes to trace"))
    | some spanContext => (spanContext, none)

/-- `SpanContextFromPodEncodedContext` (traceutil): decode
`pod.ObjectMeta.TraceContext` the same way; the parse-failure message
carries the pod name (`fmt.Errorf("could not convert raw bytes to trace
from pod %s", pod.Name)`). -/
def SpanContextFromPodEncodedContext (pod : Pod) :
    SpanContext × Option DecodeError :=
  match base64DecodeString pod.traceContext with
  | none => (zeroSpanContext, some DecodeError.malformedBase64)
  | some decodedContextBytes =>
    match FromBinary decodedContextBytes with
    | none => (zeroSpanContext,
        some (DecodeError.malformedTraceBuffer
          ("could not convert raw bytes to trace from pod " ++ pod.name)))
    | some spanContext => (spanContext, none)

/-- Model of an opencensus span as far as this code observes it: its name
and its remote parent, when started with one. -/
structure Span where
  name : String
  remoteParent : Option SpanContext
deriving DecidableEq

/-- Model of a Go `context.Context` as far as this code observes it: the
span stored in it, if any.  `context.Background()` carries none. -/
structure GoContext where
  currentSpan : Option Span
deriving DecidableEq

def backgroundContext : GoContext := ⟨none⟩

/-- The `&trace.Span{}` returned on the failure path. -/
def emptySpan : Span := ⟨"", none⟩

/-- Model of `trace.StartSpanWithRemoteParent(ctx, name, parent)`: a new
span named `name` with `parent` as remote parent, returned together with a
context holding it. -/
def StartSpanWithRemoteParent (_ctx : GoContext) (name : String)
    (parent : SpanContext) : GoContext × Span :=
  let s : Span := ⟨name, some parent⟩
  (⟨some s⟩, s)

/-- Result of `SpanFromPodEncodedContext`: the Go function returns
`(ctx, span, err)` and mutates the pod through its pointer, so the updated
pod is returned explicitly here. -/
structure SpanFromPodResult where
  pod : Pod
  ctx : GoContext
  span : Span
  err : Option DecodeError
deriving DecidableEq

/-- `SpanFromPodEncodedContext` (traceutil): sets the pod's resource
version to "asdf" (`pod.SetResourceVersion("asdf")` in the source), decodes
the embedded context, and on success starts a span with the decoded context
as remote parent; on failure returns `(context.Background(), &trace.Span{},
err)`. -/
def SpanFromPodEncodedContext (pod : Pod) (name : String) : SpanFromPodResult :=
  let pod1 : Pod := { pod with resourceVersion := "asdf" }
  let r := SpanContextFromPodEncodedContext pod1
  match r.2 with
  | some e => ⟨pod1, backgroundContext, emptySpan, some e⟩
  | none =>
    let started := StartSpanWithRemoteParent backgroundContext name r.1
    ⟨pod1, started.1, started.2, none⟩

/-- `EncodeSpanContextIntoPod` (traceutil): base64-encode the binary wire
format of the span context and store it in the pod's `TraceContext` field;
always returns nil error.  The updated pod is returned explicitly (the Go
function mutates it through a pointer). -/
def EncodeSpanContextIntoPod (pod : Pod) (spanContext : SpanContext) :
    Pod × Option String :=
  let rawContextBytes := Binary spanContext
  let encodedContext := base64EncodeToString rawContextBytes
  ({ pod with traceContext := encodedContext }, none)

/-- `SpanContextToBase64String` (traceutil): base64 of the binary wire
format. -/
def SpanContextToBase64String (spanContext : SpanContext) : String :=
  base64EncodeToString (Binary spanContext)

/-- The external calls `pkg/util/pod/pod.go` makes, as opaque functions
with Go's `(value, error)` multi-return shape: `json.Marshal` of a
`v1.Pod{ObjectMeta: m}`, `strategicpatch.CreateTwoWayMergePatch`, and the
API server call `c.CoreV1().Pods(namespace).Patch(...)`. -/
structure PatchEnv where
  marshal : Pod → List Nat × Option String
  createTwoWayMergePatch : List Nat → List Nat → Option (List Nat) × Option String
  apiPatch : String → String → Option (List Nat) → Option Pod × Option String

/-- `preparePatchBytesForTraceContext` (pkg/util/pod/pod.go): marshals the
old and new object metadata, propagating marshal errors, then calls
`CreateTwoWayMergePatch` and returns `(patchBytes, nil)` — the error of
`CreateTwoWayMergePatch` is dropped, exactly as in the source
(`patchBytes, err := strategicpatch.CreateTwoWayMergePatch(...)` followed by
`return patchBytes, nil`). -/
def preparePatchBytesForTraceContext (env : PatchEnv)
    (namespaceName podName _newTraceContext : String)
    (oldObjectMeta newObjectMeta : Pod) : Option (List Nat) × Option String :=
  let old := env.marshal oldObjectMeta
  match old.2 with
  | some e => (none, some ("failed to Marshal oldData for pod " ++ namespaceName
      ++ "/" ++ podName ++ ": " ++ e))
  | none =>
    let newD := env.marshal newObjectMeta
    match newD.2 with
    | some e => (none, some ("failed to Marshal newData for pod " ++ namespaceName
        ++ "/" ++ podName ++ ": " ++ e))
    | none =>
      let patch := env.createTwoWayMergePatch old.1 newD.1
      (patch.1, none)

/-- `ReplacePodTraceContext` (pkg/util/pod/pod.go): builds the new metadata
by overwriting the trace-context field, prepares the patch bytes, and calls
the API server's patch; errors of the prepare step and of the API call are
returned. -/
def ReplacePodTraceContext (env : PatchEnv)
    (namespaceName podName newTraceContext : String)
    (oldObjectMeta : Pod) : Option Pod × Option String :=
  let newObjectMeta : Pod := { oldObjectMeta with traceContext := newTraceContext }
  let pb := preparePatchBytesForTraceContext env namespaceName podName
      newTraceContext oldObjectMeta newObjectMeta
  match pb.2 with
  | some e => (none, some e)
  | none =>
    let r := env.apiPatch namespaceName podName pb.1
    match r.2 with
    | some e => (none, some ("Failed to patch trace context " ++
        oldObjectMeta.traceContext ++ " for pod " ++ namespaceName ++ "/" ++
        podName ++ " with error " ++ e))
    | none => (r.1, none)

/-- Model of an `openzipkin.Endpoint` (service name plus host:port). -/
structure ZipkinEndpoint where
  serviceName : String
  hostPort : String
deriving DecidableEq

/-- Model of the zipkin exporter the bootstrap registers: the reporter URL
and the local endpoint it was built from (`nil` when endpoint construction
failed, since the code uses the endpoint regardless). -/
structure Exporter where
  reporterURL : String
  localEndpoint : Option ZipkinEndpoint
deriving DecidableEq

/-- `InitializeExporter(service)` (the revision taking a `ServiceType`):
calls `openzipkin.NewEndpoint(service, "192.168.1.5:5454")` — modelled by
the `newEndpoint` argument, an opaque function with Go's `(value, error)`
shape — and on failure only logs (`glog.Errorf`) and continues; it then
builds the zipkin exporter from the reporter URL and the (possibly nil)
endpoint, registers it, and returns nil.  The registered exporter and the
returned error are the result. -/
def InitializeExporter (service : String)
    (newEndpoint : String → String → Option ZipkinEndpoint × Option String) :
    Exporter × Option String :=
  let localEndpoint := newEndpoint service "192.168.1.5:5454"
  let ze : Exporter := ⟨"http://35.193.38.26:9411/api/v2/spans", localEndpoint.1⟩
  (ze, none)

/-- Outcome of the other `InitializeExporter` revision: either the function
returns (with the exporter it registered, if any, and an error value) or
the process is terminated by `log.Fatalf`. -/
inductive InitOutcome where
  | returned : Option Exporter → Option String → InitOutcome
  | fatalExit : String → InitOutcome
deriving DecidableEq

/-- `InitializeExporter()` (the zero-argument revision in
`pkg/util/trace/traceutil.go`): calls `openzipkin.NewEndpoint
("kubernetes-component", "192.168.1.5:5454")` and on failure terminates the
process via `log.Fatalf`; otherwise registers the zipkin exporter and
returns nil. -/
def InitializeExporterKubeComponent
    (newEndpoint : String → String → Option ZipkinEndpoint × Option String) :
    InitOutcome :=
  let localEndpoint := newEndpoint "kubernetes-component" "192.168.1.5:5454"
  match localEndpoint.2 with
  | some _ => InitOutcome.fatalExit "Failed to create the local zipkinEndpoint"
  | none =>
    let ze : Exporter := ⟨"http://35.193.38.26:9411/api/v2/spans", localEndpoint.1⟩
    InitOutcome.returned (some ze) none

/-! Helper lemmas about the base64 model. -/

theorem b64Value_b64Char : ∀ v : Nat, v < 64 → b64Value (b64Char v) = some v := by
  decide

theorem b64Char_ne_pad : ∀ v : Nat, v < 64 → b64Char v ≠ '=' := by
  decide

theorem decodeQuanta_full (v1 v2 v3 v4 : Nat) (rest : List Char)
    (h1 : v1 < 64) (h2 : v2 < 64) (h3 : v3 < 64) (h4 : v4 < 64) :
    base64DecodeQuanta (b64Char v1 :: b64Char v2 :: b64Char v3 :: b64Char v4 :: rest) =
      match base64DecodeQuanta rest with
      | some bs => some ((v1 * 4 + v2 / 16) :: (v2 % 16 * 16 + v3 / 4) ::
                         (v3 % 4 * 64 + v4) :: bs)
      | none => none := by
  simp only [base64DecodeQuanta, b64Value_b64Char _ h1, b64Value_b64Char _ h2,
    b64Value_b64Char _ h3, b64Value_b64Char _ h4,
    if_neg (b64Char_ne_pad _ h3), if_neg (b64Char_ne_pad _ h4)]

theorem decodeQuanta_pad2 (v1 v2 : Nat) (h1 : v1 < 64) (h2 : v2 < 64) :
    base64DecodeQuanta [b64Char v1, b64Char v2, '=', '='] = some [v1 * 4 + v2 / 16] := by
  simp only [base64DecodeQuanta, b64Value_b64Char _ h1, b64Value_b64Char _ h2]
  simp

theorem decodeQuanta_pad1 (v1 v2 v3 : Nat) (h1 : v1 < 64) (h2 : v2 < 64) (h3 : v3 < 64) :
    base64DecodeQuanta [b64Char v1, b64Char v2, b64Char v3, '='] =
      some [v1 * 4 + v2 / 16, v2 % 16 * 16 + v3 / 4] := by
  simp only [base64DecodeQuanta, b64Value_b64Char _ h1, b64Value_b64Char _ h2,
    b64Value_b64Char _ h3, if_neg (b64Char_ne_pad _ h3)]
  simp

/-- Decoding inverts encoding on any byte list (the base64 layer of the
round-trip). -/
theorem base64_decode_encode (bs : List Nat) (h : ∀ b ∈ bs, b < 256) :
    base64DecodeQuanta (base64EncodeList bs) = some bs := by
  induction bs using base64EncodeList.induct with
  | case1 => rfl
  | case2 b1 =>
    have h1 : b1 < 256 := h b1 (by simp)
    rw [show base64EncodeList [b1] =
      [b64Char (b1 % 256 / 4), b64Char (b1 % 256 % 4 * 16), '=', '='] from rfl]
    rw [decodeQuanta_pad2 _ _ (by omega) (by omega)]
    simp only [Option.some.injEq, List.cons.injEq]
    exact ⟨by omega, trivial⟩
  | case3 b1 b2 =>
    have h1 : b1 < 256 := h b1 (by simp)
    have h2 : b2 < 256 := h b2 (by simp)
    rw [show base64EncodeList [b1, b2] =
      [b64Char (b1 % 256 / 4), b64Char (b1 % 256 % 4 * 16 + b2 % 256 / 16),
       b64Char (b2 % 256 % 16 * 4), '='] from rfl]
    rw [decodeQuanta_pad1 _ _ _ (by omega) (by omega) (by omega)]
    simp only [Option.some.injEq, List.cons.injEq]
    exact ⟨by omega, by omega, trivial⟩
  | case4 b1 b2 b3 rest ih =>
    have h1 : b1 < 256 := h b1 (by simp)
    have h2 : b2 < 256 := h b2 (by simp)
    have h3 : b3 < 256 := h b3 (by simp)
    have hrest : ∀ b ∈ rest, b < 256 := fun b hb => h b (by simp [hb])
    rw [show base64EncodeList (b1 :: b2 :: b3 :: rest) =
      b64Char (b1 % 256 / 4) :: b64Char (b1 % 256 % 4 * 16 + b2 % 256 / 16) ::
      b64Char (b2 % 256 % 16 * 4 + b3 % 256 / 64) :: b64Char (b3 % 256 % 64) ::
      base64EncodeList rest from rfl]
    rw [decodeQuanta_full _ _ _ _ _ (by omega) (by omega) (by omega) (by omega)]
    rw [ih hrest]
    simp only [Option.some.injEq, List.cons.injEq]
    exact ⟨by omega, by omega, by omega, trivial⟩

/-- Decoding the produced string inverts `base64EncodeToString`. -/
theorem base64_decodeString_encodeToString (bs : List Nat) (h : ∀ b ∈ bs, b < 256) :
    base64DecodeString (base64EncodeToString bs) = some bs :=
  base64_decode_encode bs h

/-! Helper lemmas about the binary wire format. -/

/-- `FromBinary` parses a well-shaped version-0 buffer back into its
fields. -/
theorem fromBinary_concrete (tid sid : List Nat) (o : Nat)
    (hT : tid.length = 16) (hS : sid.length = 8) :
    FromBinary (0 :: 0 :: (tid ++ 1 :: (sid ++ [2, o]))) = some ⟨tid, sid, o⟩ := by
  have t1 : List.take 16 (tid ++ 1 :: (sid ++ [2, o])) = tid := List.take_left' hT
  have d1 : List.drop 16 (tid ++ 1 :: (sid ++ [2, o])) = 1 :: (sid ++ [2, o]) :=
    List.drop_left' hT
  have t2 : List.take 8 (sid ++ [2, o]) = sid := List.take_left' hS
  have d2 : List.drop 8 (sid ++ [2, o]) = [2, o] := List.drop_left' hS
  simp [FromBinary, hT, hS, t1, d1, t2, d2]

/-- Every entry of the binary serialization of a valid context is a byte. -/
theorem binary_bytes_lt (sc : SpanContext) (h : sc.valid) :
    ∀ b ∈ Binary sc, b < 256 := by
  obtain ⟨hT, hS, hTb, hSb, hO, hne⟩ := h
  intro b hb
  simp only [Binary, if_neg hne, List.mem_cons, List.mem_append] at hb
  rcases hb with rfl | rfl | hb | hb
  · omega
  · omega
  · exact hTb b hb
  · rcases hb with rfl | hb | hb
    · omega
    · exact hSb b hb
    · rcases hb with rfl | hb
      · omega
      · rcases hb with rfl | hb
        · exact Nat.mod_lt _ (by omega)
        · cases hb

/-- `FromBinary` inverts `Binary` on valid contexts. -/
theorem fromBinary_binary (sc : SpanContext) (h : sc.valid) :
    FromBinary (Binary sc) = some sc := by
  obtain ⟨hT, hS, hTb, hSb, hO, hne⟩ := h
  unfold Binary
  rw [if_neg hne, fromBinary_concrete _ _ _ hT hS, Nat.mod_eq_of_lt hO]

/-- Case equation: base64 rejection. -/
theorem spanContextFromBase64_base64Err (s : String)
    (h : base64DecodeString s = none) :
    SpanContextFromBase64String s =
      (zeroSpanContext, some DecodeError.malformedBase64) := by
  unfold SpanContextFromBase64String
  rw [h]

/-- Case equation: the bytes decode but the binary parser rejects them. -/
theorem spanContextFromBase64_bufferErr (s : String) (bs : List Nat)
    (h1 : base64DecodeString s = some bs) (h2 : FromBinary bs = none) :
    SpanContextFromBase64String s =
      (zeroSpanContext,
       some (DecodeError.malformedTraceBuffer "could not convert raw bytes to trace")) := by
  unfold SpanContextFromBase64String
  rw [h1]
  simp only []
  rw [h2]

/-- Case equation: successful decode. -/
theorem spanContextFromBase64_ok (s : String) (bs : List Nat) (sc : SpanContext)
    (h1 : base64DecodeString s = some bs) (h2 : FromBinary bs = some sc) :
    SpanContextFromBase64String s = (sc, none) := by
  unfold SpanContextFromBase64String
  rw [h1]
  simp only []
  rw [h2]

/-- Case equation for the pod variant: base64 rejection. -/
theorem spanContextFromPod_base64Err (pod : Pod)
    (h : base64DecodeString pod.traceContext = none) :
    SpanContextFromPodEncodedContext pod =
      (zeroSpanContext, some DecodeError.malformedBase64) := by
  unfold SpanContextFromPodEncodedContext
  rw [h]

/-- Case equation for the pod variant: the binary parser rejects the bytes. -/
theorem spanContextFromPod_bufferErr (pod : Pod) (bs : List Nat)
    (h1 : base64DecodeString pod.traceContext = some bs) (h2 : FromBinary bs = none) :
    SpanContextFromPodEncodedContext pod =
      (zeroSpanContext,
       some (DecodeError.malformedTraceBuffer
         ("could not convert raw bytes to trace from pod " ++ pod.name))) := by
  unfold SpanContextFromPodEncodedContext
  rw [h1]
  simp only []
  rw [h2]

/-- Case equation for the pod variant: successful decode. -/
theorem spanContextFromPod_ok (pod : Pod) (bs : List Nat) (sc : SpanContext)
    (h1 : base64DecodeString pod.traceContext = some bs)
    (h2 : FromBinary bs = some sc) :
    SpanContextFromPodEncodedContext pod = (sc, none) := by
  unfold SpanContextFromPodEncodedContext
  rw [h1]
  simp only []
  rw [h2]

/-- Decoding a pod whose trace-context field is empty: the base64 decoder
accepts the empty string as zero bytes, and `FromBinary` then rejects the
empty buffer, so the result is the zero context with the parse error. -/
theorem spanContextFromPod_empty (pod : Pod) (h : pod.traceContext = "") :
    SpanContextFromPodEncodedContext pod =
      (zeroSpanContext, some (DecodeError.malformedTraceBuffer
        ("could not convert raw bytes to trace from pod " ++ pod.name))) := by
  unfold SpanContextFromPodEncodedContext
  rw [h]
  rfl

/-! Claim theorems. -/

/-- Claim C1: for every valid SpanContext `c`, decoding the base64 string
produced by `SpanContextToBase64String c` via `SpanContextFromBase64String`
returns exactly `c` (trace ID, span ID and trace flags preserved) with no
error. -/
theorem C1_encode_decode_roundtrip (c : SpanContext) (h : c.valid) :
    SpanContextFromBase64String (SpanContextToBase64String c) = (c, none) := by
  have hb := binary_bytes_lt c h
  simp [SpanContextFromBase64String, SpanContextToBase64String,
    base64_decodeString_encodeToString (Binary c) hb, fromBinary_binary c h]

/-- Witness for C1: the round-trip at a concrete valid span context. -/
theorem C1_encode_decode_roundtrip_witness :
    (⟨[1, 2, 3, 4, 5, 6, 7, 8, 9, 10, 11, 12, 13, 14, 15, 16],
      [1, 2, 3, 4, 5, 6, 7, 8], 1⟩ : SpanContext).valid ∧
    SpanContextFromBase64String (SpanContextToBase64String
      ⟨[1, 2, 3, 4, 5, 6, 7, 8, 9, 10, 11, 12, 13, 14, 15, 16],
       [1, 2, 3, 4, 5, 6, 7, 8], 1⟩) =
      (⟨[1, 2, 3, 4, 5, 6, 7, 8, 9, 10, 11, 12, 13, 14, 15, 16],
        [1, 2, 3, 4, 5, 6, 7, 8], 1⟩, none) :=
  ⟨by decide, C1_encode_decode_roundtrip _ (by decide)⟩

/-- Claim C2, counterexample: decoding the empty string (directly, and from
a pod whose trace-context field is empty) returns the malformed-trace-buffer
error built after `FromBinary` rejects the empty buffer — the claim says the
empty input is never routed through the binary parser and never yields a
MalformedTraceBuffer error. -/
theorem C2_counterexample :
    (SpanContextFromBase64String "").2 =
      some (DecodeError.malformedTraceBuffer "could not convert raw bytes to trace") ∧
    (SpanContextFromPodEncodedContext ⟨"mypod", "rv", ""⟩).2 =
      some (DecodeError.malformedTraceBuffer
        "could not convert raw bytes to trace from pod mypod") := by
  decide

/-- Claim C2 as amended: the empty input is not treated as a distinct
no-context case; it passes the base64 decoder (as zero bytes), is routed
through the binary parser, and comes back as the zero context with the
malformed-trace-buffer error — never a base64 error and never success. -/
theorem C2_amended_empty_input (pod : Pod) (h : pod.traceContext = "") :
    SpanContextFromPodEncodedContext pod =
      (zeroSpanContext, some (DecodeError.malformedTraceBuffer
        ("could not convert raw bytes to trace from pod " ++ pod.name))) ∧
    SpanContextFromBase64String "" =
      (zeroSpanContext, some (DecodeError.malformedTraceBuffer
        "could not convert raw bytes to trace")) :=
  ⟨spanContextFromPod_empty pod h, by decide⟩

/-- Witness for the amended C2 at a concrete pod. -/
theorem C2_amended_empty_input_witness :
    SpanContextFromPodEncodedContext ⟨"mypod", "rv", ""⟩ =
      (zeroSpanContext, some (DecodeError.malformedTraceBuffer
        ("could not convert raw bytes to trace from pod " ++ "mypod"))) ∧
    SpanContextFromBase64String "" =
      (zeroSpanContext, some (DecodeError.malformedTraceBuffer
        "could not convert raw bytes to trace")) :=
  C2_amended_empty_input ⟨"mypod", "rv", ""⟩ rfl

/-- Claim C3, counterexample: on a pod with empty name,
`EncodeSpanContextIntoPod` reports success (nil error) and overwrites the
trace-context field — the claim says it returns a CarrierIdentityMissing
error and leaves the field unchanged. -/
theorem C3_counterexample :
    (EncodeSpanContextIntoPod ⟨"", "rv", "old"⟩
      ⟨[1, 2, 3, 4, 5, 6, 7, 8, 9, 10, 11, 12, 13, 14, 15, 16],
       [1, 2, 3, 4, 5, 6, 7, 8], 1⟩).2 = none ∧
    (EncodeSpanContextIntoPod ⟨"", "rv", "old"⟩
      ⟨[1, 2, 3, 4, 5, 6, 7, 8, 9, 10, 11, 12, 13, 14, 15, 16],
       [1, 2, 3, 4, 5, 6, 7, 8], 1⟩).1.traceContext ≠ "old" := by
  decide

/-- Claim C3 as amended: `EncodeSpanContextIntoPod` performs no identity
check at all — even on a pod whose name is empty it returns success and
overwrites the trace-context field with the encoding of the given context. -/
theorem C3_amended_no_identity_check (pod : Pod) (sc : SpanContext)
    (_h : pod.name = "") :
    EncodeSpanContextIntoPod pod sc =
      ({ pod with traceContext := SpanContextToBase64String sc }, none) := rfl

/-- Witness for the amended C3 at a concrete empty-name pod. -/
theorem C3_amended_no_identity_check_witness :
    EncodeSpanContextIntoPod ⟨"", "rv", "old"⟩ zeroSpanContext =
      (⟨"", "rv", SpanContextToBase64String zeroSpanContext⟩, none) :=
  C3_amended_no_identity_check ⟨"", "rv", "old"⟩ zeroSpanContext rfl

/-- Claim C4: for every pod whose trace-context field is empty or fails to
decode, `SpanFromPodEncodedContext` returns a non-nil error together with
`context.Background()` and the empty span — no usable pair parented on a
decoded context. -/
theorem C4_linked_span_failure (pod : Pod) (name : String)
    (h : pod.traceContext = "" ∨ (SpanContextFromPodEncodedContext pod).2 ≠ none) :
    (SpanFromPodEncodedContext pod name).err ≠ none ∧
    (SpanFromPodEncodedContext pod name).ctx = backgroundContext ∧
    (SpanFromPodEncodedContext pod name).span = emptySpan := by
  have herr : (SpanContextFromPodEncodedContext pod).2 ≠ none := by
    rcases h with h | h
    · rw [spanContextFromPod_empty pod h]
      simp
    · exact h
  obtain ⟨e, he⟩ := Option.ne_none_iff_exists'.mp herr
  have hrw : SpanContextFromPodEncodedContext { pod with resourceVersion := "asdf" } =
      SpanContextFromPodEncodedContext pod := rfl
  simp only [SpanFromPodEncodedContext]
  rw [hrw, he]
  simp

/-- Witness for C4 at a concrete pod with no embedded context. -/
theorem C4_linked_span_failure_witness :
    (SpanFromPodEncodedContext ⟨"mypod", "rv", ""⟩ "child").err ≠ none ∧
    (SpanFromPodEncodedContext ⟨"mypod", "rv", ""⟩ "child").ctx = backgroundContext ∧
    (SpanFromPodEncodedContext ⟨"mypod", "rv", ""⟩ "child").span = emptySpan :=
  C4_linked_span_failure ⟨"mypod", "rv", ""⟩ "child" (Or.inl rfl)

/-- Claim C5 (code bug): the read path is not pure —
`SpanFromPodEncodedContext` sets the pod's resource version to "asdf"
(`pod.SetResourceVersion("asdf")` in the source), so a pod entering with
resource version "v1" leaves with "asdf". -/
theorem C5_read_path_mutates_pod :
    (SpanFromPodEncodedContext ⟨"mypod", "v1", ""⟩ "child").pod =
      ⟨"mypod", "asdf", ""⟩ ∧ ("asdf" : String) ≠ "v1" := by
  decide

/-- Claim C6: inputs rejected by the base64 decoder yield the base64 error;
inputs that decode to bytes `FromBinary` rejects yield the distinct
malformed-trace-buffer error. -/
theorem C6_malformed_rejection :
    (∀ s : String, base64DecodeString s = none →
      (SpanContextFromBase64String s).2 = some DecodeError.malformedBase64) ∧
    (∀ s : String, ∀ bs : List Nat,
      base64DecodeString s = some bs → FromBinary bs = none →
      (SpanContextFromBase64String s).2 =
        some (DecodeError.malformedTraceBuffer "could not convert raw bytes to trace")) ∧
    DecodeError.malformedBase64 ≠
      DecodeError.malformedTraceBuffer "could not convert raw bytes to trace" := by
  refine ⟨?_, ?_, by decide⟩
  · intro s hs
    unfold SpanContextFromBase64String
    rw [hs]
  · intro s bs hs hb
    unfold SpanContextFromBase64String
    rw [hs]
    simp only []
    rw [hb]

/-- Witness for C6: the claim's two example inputs — a non-base64 string,
and the base64 encoding of the five bytes of "short", which is too short a
buffer for the binary parser. -/
theorem C6_malformed_rejection_witness :
    (SpanContextFromBase64String "not-valid-base64!!").2 =
      some DecodeError.malformedBase64 ∧
    (SpanContextFromBase64String "c2hvcnQ=").2 =
      some (DecodeError.malformedTraceBuffer "could not convert raw bytes to trace") :=
  ⟨C6_malformed_rejection.1 "not-valid-base64!!" (by decide),
   C6_malformed_rejection.2.1 "c2hvcnQ=" [115, 104, 111, 114, 116]
     (by decide) (by decide)⟩

/-- An environment for the patch helpers in which marshalling succeeds, the
two-way merge patch step fails, and the API patch call is inert. -/
def mergePatchFailEnv : PatchEnv where
  marshal := fun _ => ([123], none)
  createTwoWayMergePatch := fun _ _ => (none, some "merge patch failed")
  apiPatch := fun _ _ _ => (none, none)

/-- Claim C7 (code bug): when `CreateTwoWayMergePatch` fails,
`preparePatchBytesForTraceContext` still returns a nil error (the source
drops the error and executes `return patchBytes, nil`), so the failure never
reaches the caller. -/
theorem C7_merge_patch_error_swallowed :
    (mergePatchFailEnv.createTwoWayMergePatch [123] [123]).2 =
      some "merge patch failed" ∧
    preparePatchBytesForTraceContext mergePatchFailEnv "ns" "mypod" "newctx"
      ⟨"mypod", "rv", "old"⟩ ⟨"mypod", "rv", "newctx"⟩ = (none, none) := by
  decide

/-- Claim C8 (code bug): when local-endpoint construction fails, the
`ServiceType` revision of `InitializeExporter` logs and returns a nil error
anyway, and the zero-argument revision terminates the process via
`log.Fatalf` — neither returns a non-nil error to its caller. -/
theorem C8_exporter_init_failure_not_returned :
    (InitializeExporter "api-server" (fun _ _ => (none, some "bad local address"))).2 =
      none ∧
    InitializeExporterKubeComponent (fun _ _ => (none, some "bad local address")) =
      InitOutcome.fatalExit "Failed to create the local zipkinEndpoint" := by
  decide

/-- Claim C9: for every pod and span context, `EncodeSpanContextIntoPod`
sets the trace-context field to the base64 encoding of the binary
serialization (equivalently, `SpanContextToBase64String`), leaves the other
pod fields unchanged, and reports success. -/
theorem C9_encode_postcondition (pod : Pod) (c : SpanContext) :
    (EncodeSpanContextIntoPod pod c).1.traceContext =
      base64EncodeToString (Binary c) ∧
    (EncodeSpanContextIntoPod pod c).1.traceContext = SpanContextToBase64String c ∧
    (EncodeSpanContextIntoPod pod c).1.name = pod.name ∧
    (EncodeSpanContextIntoPod pod c).1.resourceVersion = pod.resourceVersion ∧
    (EncodeSpanContextIntoPod pod c).2 = none :=
  ⟨rfl, rfl, rfl, rfl, rfl⟩

/-- Claim C10: whenever decoding fails, both decode functions return
exactly the zero-valued span context alongside the error. -/
theorem C10_zero_context_on_failure :
    (∀ s : String, (SpanContextFromBase64String s).2 ≠ none →
      (SpanContextFromBase64String s).1 = zeroSpanContext) ∧
    (∀ pod : Pod, (SpanContextFromPodEncodedContext pod).2 ≠ none →
      (SpanContextFromPodEncodedContext pod).1 = zeroSpanContext) := by
  constructor
  · intro s h
    cases hd : base64DecodeString s with
    | none => rw [spanContextFromBase64_base64Err s hd]
    | some bs =>
      cases hf : FromBinary bs with
      | none => rw [spanContextFromBase64_bufferErr s bs hd hf]
      | some sc =>
        rw [spanContextFromBase64_ok s bs sc hd hf] at h
        exact absurd rfl h
  · intro pod h
    cases hd : base64DecodeString pod.traceContext with
    | none => rw [spanContextFromPod_base64Err pod hd]
    | some bs =>
      cases hf : FromBinary bs with
      | none => rw [spanContextFromPod_bufferErr pod bs hd hf]
      | some sc =>
        rw [spanContextFromPod_ok pod bs sc hd hf] at h
        exact absurd rfl h

/-- Witness for C10: a non-base64 input, for both decode functions. -/
theorem C10_zero_context_on_failure_witness :
    (SpanContextFromBase64String "!!").1 = zeroSpanContext ∧
    (SpanContextFromPodEncodedContext ⟨"mypod", "rv", "!!"⟩).1 = zeroSpanContext :=
  ⟨C10_zero_context_on_failure.1 "!!" (by decide),
   C10_zero_context_on_failure.2 ⟨"mypod", "rv", "!!"⟩ (by decide)⟩

end KubeTrace
